import Mathlib

/-
Shallow embedding of the semantic analyzer in `main.py`
(classes `AnalizadorLexico` and `AnalizadorSemantico`).

Strings are modelled as Lean `String`/`List Char`; the embedding assumes
ASCII source text (Python's `\b`, `\w` and `str.strip()` are Unicode-aware,
but every lexical rule of the program only ever matches ASCII characters).
Python's insertion-ordered `dict` for the symbol table is modelled as an
association list in insertion order with unique keys; a second binding for
a key is never created because the analyzer checks membership first.
-/

set_option autoImplicit false

namespace Analizador

/-- Token kinds, from `class TipoToken(Enum)`. -/
inductive TipoToken where
  | TIPO_DATO
  | IDENTIFICADOR
  | NUMERO
  | CADENA
  | BOOLEANO
  | OPERADOR
  | ASIGNACION
  | PALABRA_CLAVE
  | PARENTESIS
  | PUNTO_COMA
  | DESCONOCIDO
  deriving DecidableEq, Repr

/-- `@dataclass class Token`. -/
structure Token where
  tipo : TipoToken
  valor : String
  linea : Nat
  columna : Nat
  deriving DecidableEq, Repr

/-- `@dataclass class Variable`. -/
structure Variable where
  nombre : String
  tipo : String
  linea_declaracion : Nat
  inicializada : Bool
  usada : Bool
  deriving DecidableEq, Repr

/-- `@dataclass class Error`. -/
structure Error where
  tipo : String
  mensaje : String
  linea : Nat
  columna : Nat
  deriving DecidableEq, Repr

/- ------------------------------------------------------------------ -/
/- Lexer (`AnalizadorLexico`).                                         -/
/- ------------------------------------------------------------------ -/

/-- Python regex word character (`\w`), restricted to ASCII. -/
def es_car_palabra (c : Char) : Bool :=
  c.isAlpha || c.isDigit || c == '_'

/-- Word-character test on an optional character; characters beyond either
end of the line count as non-word for `\b` purposes. -/
def es_car_palabra_opt : Option Char → Bool
  | some c => es_car_palabra c
  | none => false

/-- Alternatives of the `TIPO_DATO` pattern, in regex order. -/
def lista_tipos_dato : List String :=
  ["int", "float", "double", "bool", "char", "string", "void"]

/-- Alternatives of the `PALABRA_CLAVE` pattern, in regex order. -/
def lista_palabras_clave : List String :=
  ["if", "else", "while", "for", "return", "break", "continue", "switch", "case", "default"]

/-- Alternatives of the `BOOLEANO` pattern, in regex order. -/
def lista_booleanos : List String :=
  ["true", "false"]

/-- Matcher for a pattern of shape `\b(kw1|kw2|...)\b` at the current
position: `prev` is the character just before the position (`none` at the
start of the line), `resto` the rest of the line.  Every keyword starts
and ends with a letter, so the leading `\b` demands a non-word `prev` and
the trailing `\b` demands a non-word successor.  Alternatives are tried
in order, as Python's `re` does. -/
def coincidir_palabras (palabras : List String) (prev : Option Char) (resto : List Char) : Option Nat :=
  if es_car_palabra_opt prev then none
  else palabras.findSome? fun kw =>
    let kwl := kw.toList
    if resto.take kwl.length = kwl ∧ ¬ es_car_palabra_opt resto[kwl.length]? then
      some kwl.length
    else none

/-- Length of the maximal digit run at the head of `resto`. -/
def contar_digitos (resto : List Char) : Nat :=
  (resto.takeWhile Char.isDigit).length

/-- Matcher for the `NUMERO` pattern `\b\d+\.?\d*\b`, reproducing Python
backtracking: `\d+` and `\d*` are greedy and give characters back from the
right until the final `\b` holds, and `.?` gives back its dot after `\d*`
is exhausted.  Consequences kept faithfully: `"1.2x"` matches `"1."`
(the boundary lands between the dot and the digit), `"3."` at end of line
matches `"3"`, and `"3x"` does not match at all. -/
def coincidir_numero (prev : Option Char) (resto : List Char) : Option Nat :=
  if es_car_palabra_opt prev then none
  else
    let d1 := contar_digitos resto
    if d1 = 0 then none
    else if resto[d1]? = some '.' then
      let d2 := contar_digitos (resto.drop (d1 + 1))
      if 0 < d2 then
        if es_car_palabra_opt resto[d1 + 1 + d2]? then some (d1 + 1) else some (d1 + 1 + d2)
      else
        if es_car_palabra_opt resto[d1 + 1]? then some (d1 + 1) else some d1
    else
      if es_car_palabra_opt resto[d1]? then none else some d1

/-- Matcher for the `CADENA` pattern `"[^"]*"`: an opening quote, the run
up to the next quote, and that closing quote. -/
def coincidir_cadena (resto : List Char) : Option Nat :=
  match resto with
  | '"' :: cola =>
    match cola.findIdx? (fun c => c == '"') with
    | some k => some (k + 2)
    | none => none
  | _ => none

/-- Matcher for the `IDENTIFICADOR` pattern `\b[a-zA-Z_][a-zA-Z0-9_]*\b`:
the trailing `\b` always holds after the maximal word-character run. -/
def coincidir_identificador (prev : Option Char) (resto : List Char) : Option Nat :=
  if es_car_palabra_opt prev then none
  else
    match resto with
    | c :: cola =>
      if c.isAlpha || c == '_' then some (1 + (cola.takeWhile es_car_palabra).length)
      else none
    | [] => none

/-- Matcher for the `ASIGNACION` pattern `=`. -/
def coincidir_asignacion (resto : List Char) : Option Nat :=
  match resto with
  | '=' :: _ => some 1
  | _ => none

/-- Character class of the `OPERADOR` pattern. -/
def caracteres_operador : List Char :=
  ['+', '-', '*', '/', '%', '<', '>', '=', '!', '&', '|']

/-- Matcher for the `OPERADOR` pattern `[+\-*/%<>=!&|]+` (greedy maximal
run of at least one operator character). -/
def coincidir_operador (resto : List Char) : Option Nat :=
  let n := (resto.takeWhile (fun c => caracteres_operador.contains c)).length
  if n = 0 then none else some n

/-- Character class of the `PARENTESIS` pattern `[(){}[\]]`. -/
def caracteres_parentesis : List Char :=
  ['(', ')', '\x7b', '\x7d', '[', ']']

/-- Matcher for the `PARENTESIS` pattern (one bracket character). -/
def coincidir_parentesis (resto : List Char) : Option Nat :=
  match resto with
  | c :: _ => if caracteres_parentesis.contains c then some 1 else none
  | [] => none

/-- Matcher for the `PUNTO_COMA` pattern `;`. -/
def coincidir_punto_coma (resto : List Char) : Option Nat :=
  match resto with
  | ';' :: _ => some 1
  | _ => none

/-- The combined alternation `patron_compilado`: at one position the ten
patterns are tried in the order of `self.patrones`, first match wins. -/
def coincidir_patrones (prev : Option Char) (resto : List Char) : Option (TipoToken × Nat) :=
  ((coincidir_palabras lista_tipos_dato prev resto).map (fun n => (TipoToken.TIPO_DATO, n))) <|>
  ((coincidir_palabras lista_palabras_clave prev resto).map (fun n => (TipoToken.PALABRA_CLAVE, n))) <|>
  ((coincidir_palabras lista_booleanos prev resto).map (fun n => (TipoToken.BOOLEANO, n))) <|>
  ((coincidir_numero prev resto).map (fun n => (TipoToken.NUMERO, n))) <|>
  ((coincidir_cadena resto).map (fun n => (TipoToken.CADENA, n))) <|>
  ((coincidir_identificador prev resto).map (fun n => (TipoToken.IDENTIFICADOR, n))) <|>
  ((coincidir_asignacion resto).map (fun n => (TipoToken.ASIGNACION, n))) <|>
  ((coincidir_operador resto).map (fun n => (TipoToken.OPERADOR, n))) <|>
  ((coincidir_parentesis resto).map (fun n => (TipoToken.PARENTESIS, n))) <|>
  ((coincidir_punto_coma resto).map (fun n => (TipoToken.PUNTO_COMA, n)))

/-- One trimmed line is scanned left to right as `re.finditer` does:
at each position the alternation is tried; on a match a token is emitted
carrying the matched slice (`match.group()`), the 1-based line number and
the 0-based match start within the trimmed line, and scanning resumes
after the match; on no match the position advances by one character
(unmatched characters are silently skipped).  Every pattern matches at
least one character, so `fuel = linea.length + 1` iterations always
suffice; the fuel argument only serves Lean's termination checker. -/
def escanear (linea : List Char) (num_linea : Nat) : Nat → Nat → List Token
  | 0, _ => []
  | fuel + 1, pos =>
    if pos < linea.length then
      match coincidir_patrones (if pos = 0 then none else linea[pos - 1]?) (linea.drop pos) with
      | some (tipo, n) =>
        ⟨tipo, String.mk ((linea.drop pos).take n), num_linea, pos⟩ ::
          escanear linea num_linea fuel (pos + n)
      | none => escanear linea num_linea fuel (pos + 1)
    else []

/-- Python whitespace stripped by `str.strip()`, restricted to ASCII. -/
def es_espacio (c : Char) : Bool :=
  c == ' ' || c == '\t' || c == '\n' || c == '\r' || c == '\x0b' || c == '\x0c'

/-- `linea.strip()`. -/
def recortar (linea : List Char) : List Char :=
  ((linea.dropWhile es_espacio).reverse.dropWhile es_espacio).reverse

/-- `codigo.split('\n')`: the list of lines, never empty. -/
def dividir_lineas (codigo : List Char) : List (List Char) :=
  match codigo with
  | [] => [[]]
  | c :: resto =>
    if c = '\n' then [] :: dividir_lineas resto
    else
      match dividir_lineas resto with
      | [] => [[c]]
      | l :: ls => (c :: l) :: ls

/-- The `for num_linea, linea in enumerate(lineas, 1)` loop of
`tokenizar`: each line is trimmed; empty trimmed lines and trimmed lines
starting with `//` yield no tokens; the others are scanned. -/
def tokenizar_lineas : List (List Char) → Nat → List Token
  | [], _ => []
  | linea :: resto, num_linea =>
    let l := recortar linea
    (if l = [] ∨ l.take 2 = ['/', '/'] then []
     else escanear l num_linea (l.length + 1) 0) ++
    tokenizar_lineas resto (num_linea + 1)

/-- `AnalizadorLexico.tokenizar`, a total function on the source text. -/
def tokenizar (codigo : List Char) : List Token :=
  tokenizar_lineas (dividir_lineas codigo) 1

/- ------------------------------------------------------------------ -/
/- Semantic analyzer (`AnalizadorSemantico`).                          -/
/- ------------------------------------------------------------------ -/

/-- The mutable state of one `AnalizadorSemantico` instance.  The symbol
table (a Python `dict`) is an association list in insertion order; its
keys are unique because the analyzer checks membership before inserting.
The constant fields `tipos_validos` and `compatibilidad_tipos` are never
mutated and are modelled as top-level definitions. -/
structure EstadoSem where
  tabla_simbolos : List (String × Variable)
  errores : List Error
  advertencias : List Error
  tokens : List Token
  posicion : Nat
  deriving DecidableEq, Repr

/-- A freshly constructed analyzer (`AnalizadorSemantico.__init__`). -/
def estado_inicial : EstadoSem :=
  ⟨[], [], [], [], 0⟩

/-- One decimal digit as a character. -/
def digito : Nat → Char
  | 0 => '0'
  | 1 => '1'
  | 2 => '2'
  | 3 => '3'
  | 4 => '4'
  | 5 => '5'
  | 6 => '6'
  | 7 => '7'
  | 8 => '8'
  | _ => '9'

/-- Decimal digits of `n`, most significant first; the fuel argument
(always called with `n + 1 > n`) only serves the termination checker. -/
def digitos_dec : Nat → Nat → List Char
  | 0, _ => []
  | fuel + 1, n => if n < 10 then [digito n] else digitos_dec fuel (n / 10) ++ [digito (n % 10)]

/-- Decimal rendering of a natural number, as Python's `str()` inside the
f-string error messages renders line numbers. -/
def a_cadena (n : Nat) : String :=
  String.mk (digitos_dec (n + 1) n)

/-- `self.compatibilidad_tipos`: per declared target type, the declared
source types accepted from an identifier right-hand side. -/
def compatibilidad_tipos : List (String × List String) :=
  [("int", ["int", "float", "double"]),
   ("float", ["float", "double"]),
   ("double", ["double"]),
   ("bool", ["bool"]),
   ("char", ["char"]),
   ("string", ["string"])]

/-- Lookup in the symbol table (`nombre in self.tabla_simbolos` /
`self.tabla_simbolos[nombre]`): first matching key. -/
def buscar : List (String × Variable) → String → Option Variable
  | [], _ => none
  | p :: resto, n => if p.1 = n then some p.2 else buscar resto n

/-- In-place mutation of the `Variable` object stored under a key
(`dict` keys are unique, so only the first occurrence is updated). -/
def actualizar : List (String × Variable) → String → (Variable → Variable) → List (String × Variable)
  | [], _, _ => []
  | p :: resto, n, f =>
    if p.1 = n then (p.1, f p.2) :: resto else p :: actualizar resto n f

/-- `AnalizadorSemantico.verificar_compatibilidad_tipos`. -/
def verificar_compatibilidad_tipos (tabla : List (String × Variable))
    (tipo_variable : String) (token_valor : Token) : Bool :=
  match token_valor.tipo with
  | TipoToken.NUMERO =>
    if token_valor.valor.toList.contains '.' then
      ["float", "double"].contains tipo_variable
    else
      ["int", "float", "double"].contains tipo_variable
  | TipoToken.BOOLEANO => tipo_variable == "bool"
  | TipoToken.CADENA => tipo_variable == "string"
  | TipoToken.IDENTIFICADOR =>
    match buscar tabla token_valor.valor with
    | some origen =>
      (((compatibilidad_tipos.lookup tipo_variable).getD []).contains origen.tipo)
    | none => false
  | _ => false

/-- Helper for the `Error(...)` constructor calls (severity `"ERROR"`,
column defaulted to 0). -/
def error_sem (mensaje : String) (linea : Nat) : Error :=
  ⟨"ERROR", mensaje, linea, 0⟩

/-- Helper for the warning `Error(...)` constructor calls. -/
def advertencia_sem (mensaje : String) (linea : Nat) : Error :=
  ⟨"ADVERTENCIA", mensaje, linea, 0⟩

/-- `AnalizadorSemantico.analizar_inicializacion`, called with the
`Variable` object just inserted for `nombre`; the Python method mutates
that object, here the table entry is updated through its key. -/
def analizar_inicializacion (s : EstadoSem) (nombre : String) : EstadoSem :=
  let s := { s with posicion := s.posicion + 1 }
  match buscar s.tabla_simbolos nombre with
  | none => s
  | some la_var =>
    match s.tokens[s.posicion]? with
    | none =>
      { s with errores := s.errores ++
          [error_sem ("Inicialización incompleta para variable \x27" ++ la_var.nombre ++
            "\x27 en línea " ++ a_cadena la_var.linea_declaracion) la_var.linea_declaracion] }
    | some token_valor =>
      let s :=
        if verificar_compatibilidad_tipos s.tabla_simbolos la_var.tipo token_valor then
          { s with tabla_simbolos :=
              actualizar s.tabla_simbolos nombre (fun v => { v with inicializada := true }) }
        else
          { s with errores := s.errores ++
              [error_sem ("Tipo incompatible en inicialización de \x27" ++ la_var.nombre ++
                "\x27 en línea " ++ a_cadena la_var.linea_declaracion) la_var.linea_declaracion] }
      { s with posicion := s.posicion + 1 }

/-- `AnalizadorSemantico.analizar_declaracion`. -/
def analizar_declaracion (s : EstadoSem) : EstadoSem :=
  match s.tokens[s.posicion]? with
  | none => s
  | some token_tipo =>
    let s := { s with posicion := s.posicion + 1 }
    match s.tokens[s.posicion]? with
    | none =>
      { s with errores := s.errores ++
          [error_sem ("Declaración incompleta en línea " ++ a_cadena token_tipo.linea)
            token_tipo.linea] }
    | some token_nombre =>
      if token_nombre.tipo ≠ TipoToken.IDENTIFICADOR then
        { s with errores := s.errores ++
            [error_sem ("Se esperaba un identificador después de \x27" ++ token_tipo.valor ++
              "\x27 en línea " ++ a_cadena token_tipo.linea) token_tipo.linea] }
      else if (buscar s.tabla_simbolos token_nombre.valor).isSome then
        { s with errores := s.errores ++
            [error_sem ("Variable \x27" ++ token_nombre.valor ++ "\x27 ya declarada en línea " ++
              a_cadena token_nombre.linea) token_nombre.linea] }
      else
        let la_var : Variable := ⟨token_nombre.valor, token_tipo.valor, token_nombre.linea, false, false⟩
        let s := { s with
          tabla_simbolos := s.tabla_simbolos ++ [(token_nombre.valor, la_var)],
          posicion := s.posicion + 1 }
        match s.tokens[s.posicion]? with
        | some siguiente =>
          if siguiente.tipo = TipoToken.ASIGNACION then
            analizar_inicializacion s token_nombre.valor
          else s
        | none => s

/-- `AnalizadorSemantico.analizar_asignacion`. -/
def analizar_asignacion (s : EstadoSem) (nombre_variable : String) : EstadoSem :=
  let s := { s with posicion := s.posicion + 1 }
  match s.tokens[s.posicion]? with
  | none =>
    let linea := ((s.tokens[s.posicion - 1]?).map Token.linea).getD 0
    { s with errores := s.errores ++
        [error_sem ("Asignación incompleta a variable \x27" ++ nombre_variable ++ "\x27") linea] }
  | some token_valor =>
    match buscar s.tabla_simbolos nombre_variable with
    | none => { s with posicion := s.posicion + 1 }
    | some la_var =>
      let s :=
        if verificar_compatibilidad_tipos s.tabla_simbolos la_var.tipo token_valor then
          { s with tabla_simbolos :=
              actualizar s.tabla_simbolos nombre_variable (fun v => { v with inicializada := true }) }
        else
          { s with errores := s.errores ++
              [error_sem ("Tipo incompatible en asignación a \x27" ++ nombre_variable ++
                "\x27 en línea " ++ a_cadena token_valor.linea) token_valor.linea] }
      { s with posicion := s.posicion + 1 }

/-- `AnalizadorSemantico.analizar_identificador`. -/
def analizar_identificador (s : EstadoSem) : EstadoSem :=
  match s.tokens[s.posicion]? with
  | none => { s with posicion := s.posicion + 1 }
  | some token_identificador =>
    if (buscar s.tabla_simbolos token_identificador.valor).isNone then
      let s := { s with errores := s.errores ++
          [error_sem ("Variable \x27" ++ token_identificador.valor ++ "\x27 no declarada en línea " ++
            a_cadena token_identificador.linea) token_identificador.linea] }
      { s with posicion := s.posicion + 1 }
    else
      let s := { s with tabla_simbolos := actualizar s.tabla_simbolos token_identificador.valor (fun v => { v with usada := true }) }
      match s.tokens[s.posicion + 1]? with
      | some siguiente =>
        if siguiente.tipo = TipoToken.ASIGNACION then
          analizar_asignacion { s with posicion := s.posicion + 1 } token_identificador.valor
        else { s with posicion := s.posicion + 1 }
      | none => { s with posicion := s.posicion + 1 }

/-- `AnalizadorSemantico.analizar_estructura_control`: scan the rest of
the token sequence, from just past the keyword, for an opening
parenthesis; report an error when none exists.  The cursor is not
moved. -/
def analizar_estructura_control (s : EstadoSem) (token_palabra : Token) : EstadoSem :=
  let parentesis_encontrado :=
    (s.tokens.drop (s.posicion + 1)).any
      (fun t => t.tipo == TipoToken.PARENTESIS && t.valor == "(")
  if parentesis_encontrado then s
  else
    { s with errores := s.errores ++
        [error_sem ("Se esperaba \x27(\x27 después de \x27" ++ token_palabra.valor ++
          "\x27 en línea " ++ a_cadena token_palabra.linea) token_palabra.linea] }

/-- `AnalizadorSemantico.analizar_palabra_clave`. -/
def analizar_palabra_clave (s : EstadoSem) : EstadoSem :=
  match s.tokens[s.posicion]? with
  | none => { s with posicion := s.posicion + 1 }
  | some token_palabra =>
    let s :=
      if ["if", "while", "for"].contains token_palabra.valor then
        analizar_estructura_control s token_palabra
      else s
    { s with posicion := s.posicion + 1 }

/-- One iteration of the `while` body of `analizar_tokens` (the dispatch
on the token kind at the cursor). -/
def paso_analisis (s : EstadoSem) (token_actual : Token) : EstadoSem :=
  if token_actual.tipo = TipoToken.TIPO_DATO then analizar_declaracion s
  else if token_actual.tipo = TipoToken.IDENTIFICADOR then analizar_identificador s
  else if token_actual.tipo = TipoToken.PALABRA_CLAVE then analizar_palabra_clave s
  else { s with posicion := s.posicion + 1 }

/-- `AnalizadorSemantico.analizar_tokens`: the dispatch loop.  Every
handler advances the cursor by at least one, so `tokens.length + 1` fuel
always runs the loop to completion; the fuel argument only serves Lean's
termination checker. -/
def analizar_tokens : Nat → EstadoSem → EstadoSem
  | 0, s => s
  | fuel + 1, s =>
    match s.tokens[s.posicion]? with
    | some token_actual => analizar_tokens fuel (paso_analisis s token_actual)
    | none => s

/-- Warning text of `verificar_variables_no_usadas` for one variable. -/
def advertencia_no_usada (la_var : Variable) : Error :=
  advertencia_sem ("Variable \x27" ++ la_var.nombre ++ "\x27 declarada pero no usada")
    la_var.linea_declaracion

/-- Warning text of `verificar_variables_no_inicializadas` for one
variable. -/
def advertencia_no_inicializada (la_var : Variable) : Error :=
  advertencia_sem ("Variable \x27" ++ la_var.nombre ++ "\x27 usada sin inicializar")
    la_var.linea_declaracion

/-- `AnalizadorSemantico.verificar_variables_no_usadas`: iterate the
symbol table in insertion order, appending one warning per unused
variable. -/
def verificar_variables_no_usadas (s : EstadoSem) : EstadoSem :=
  { s with advertencias := s.advertencias ++
      (s.tabla_simbolos.filterMap fun p =>
        if p.2.usada then none else some (advertencia_no_usada p.2)) }

/-- `AnalizadorSemantico.verificar_variables_no_inicializadas`: iterate
the symbol table in insertion order, appending one warning per variable
used but never initialized. -/
def verificar_variables_no_inicializadas (s : EstadoSem) : EstadoSem :=
  { s with advertencias := s.advertencias ++
      (s.tabla_simbolos.filterMap fun p =>
        if p.2.usada && !p.2.inicializada then some (advertencia_no_inicializada p.2) else none) }

/-- `AnalizadorSemantico.limpiar_estado`: every mutable field is
cleared. -/
def limpiar_estado (s : EstadoSem) : EstadoSem :=
  { s with tabla_simbolos := [], errores := [], advertencias := [], tokens := [], posicion := 0 }

/-- `AnalizadorSemantico.analizar`, up to the structured analysis result
(the rendered text of `generar_reporte` is presentation and is not
modelled): clear the previous state, tokenize, short-circuit on an empty
token sequence, otherwise run the dispatch loop and the two post-scan
checks. -/
def analizar (s : EstadoSem) (codigo : List Char) : EstadoSem :=
  let s := limpiar_estado s
  let s := { s with tokens := tokenizar codigo }
  if s.tokens = [] then
    { s with errores := s.errores ++ [error_sem ("No se encontraron tokens válidos") 1] }
  else
    let s := analizar_tokens (s.tokens.length + 1) s
    let s := verificar_variables_no_usadas s
    verificar_variables_no_inicializadas s

/- ------------------------------------------------------------------ -/
/- Specification-side definitions (for refinement comparison).         -/
/- ------------------------------------------------------------------ -/

/-- The widening table as the specification words it: per target type,
the set of declared source types from which an identifier value is
accepted (int←{int,float,double}; float←{float,double}; double←{double};
bool←{bool}; char←{char}; string←{string}; any other target has an empty
widening set). -/
def conjunto_ampliacion (objetivo : String) : List String :=
  if objetivo = "int" then ["int", "float", "double"]
  else if objetivo = "float" then ["float", "double"]
  else if objetivo = "double" then ["double"]
  else if objetivo = "bool" then ["bool"]
  else if objetivo = "char" then ["char"]
  else if objetivo = "string" then ["string"]
  else []

/-- The §4.2 compatibility table written from the specification words:
a Number containing a dot is compatible only with float and double; a
Number without a dot with int, float and double; a Boolean only with
bool; a String only with string; an Identifier naming an existing symbol
of declared type T is compatible with target V iff T lies in V's widening
set; an unknown Identifier or any other token kind is never
compatible. -/
def compatible_segun_espec (tabla : List (String × Variable)) (objetivo : String)
    (tok : Token) : Bool :=
  match tok.tipo with
  | TipoToken.NUMERO =>
    if tok.valor.toList.contains '.' then ["float", "double"].contains objetivo
    else ["int", "float", "double"].contains objetivo
  | TipoToken.BOOLEANO => objetivo == "bool"
  | TipoToken.CADENA => objetivo == "string"
  | TipoToken.IDENTIFICADOR =>
    match buscar tabla tok.valor with
    | some origen => (conjunto_ampliacion objetivo).contains origen.tipo
    | none => false
  | _ => false

/-- Concrete mid-analysis state used to instantiate the initialization
and assignment theorems: the cursor sits on the `=` of `x = 5` with `x`
declared as `int`. -/
def estado_ejemplo : EstadoSem :=
  ⟨[("x", ⟨"x", "int", 1, false, false⟩)], [], [],
   [⟨TipoToken.ASIGNACION, "=", 1, 2⟩, ⟨TipoToken.NUMERO, "5", 1, 4⟩], 0⟩

/-- The `x : int` symbol of `estado_ejemplo`. -/
def var_ejemplo : Variable :=
  ⟨"x", "int", 1, false, false⟩

/-- The `5` token of `estado_ejemplo`. -/
def token_cinco : Token :=
  ⟨TipoToken.NUMERO, "5", 1, 4⟩

/-- The token `int` at the start of line 1. -/
def token_int : Token :=
  ⟨TipoToken.TIPO_DATO, "int", 1, 0⟩

/-- A semicolon token following `int` on line 1. -/
def token_punto_coma : Token :=
  ⟨TipoToken.PUNTO_COMA, ";", 1, 3⟩

/-- State whose token sequence ends right after a type keyword. -/
def estado_decl_incompleta : EstadoSem :=
  ⟨[], [], [], [token_int], 0⟩

/-- State where a type keyword is followed by a non-identifier token. -/
def estado_decl_sin_ident : EstadoSem :=
  ⟨[], [], [], [token_int, token_punto_coma], 0⟩

/-- The keyword token `if` at the start of line 1. -/
def token_si : Token :=
  ⟨TipoToken.PALABRA_CLAVE, "if", 1, 0⟩

/-- State where `if` is followed by an opening parenthesis. -/
def estado_si_con_parentesis : EstadoSem :=
  ⟨[], [], [], [token_si, ⟨TipoToken.PARENTESIS, "(", 1, 3⟩], 0⟩

/-- State where no parenthesis follows the `if` keyword. -/
def estado_si_sin_parentesis : EstadoSem :=
  ⟨[], [], [], [token_si], 0⟩

/-- State with a `void`-typed symbol and the cursor on the `=` of
`v = 5`. -/
def estado_void : EstadoSem :=
  ⟨[("v", ⟨"v", "void", 1, false, false⟩)], [], [],
   [⟨TipoToken.ASIGNACION, "=", 1, 7⟩, ⟨TipoToken.NUMERO, "5", 1, 9⟩], 0⟩

/-- State whose two tokens form the fresh declaration `int x`. -/
def estado_decl_exito : EstadoSem :=
  ⟨[], [], [], [token_int, ⟨TipoToken.IDENTIFICADOR, "x", 1, 4⟩], 0⟩

/-- State whose first token is a duplicate declaration of `x`. -/
def estado_redeclaracion : EstadoSem :=
  ⟨[("x", ⟨"x", "int", 1, false, false⟩)], [], [],
   [⟨TipoToken.TIPO_DATO, "int", 2, 0⟩, ⟨TipoToken.IDENTIFICADOR, "x", 2, 4⟩], 0⟩

/- ------------------------------------------------------------------ -/
/- Helper lemmas.                                                      -/
/- ------------------------------------------------------------------ -/

theorem lookup_compatibilidad_eq (objetivo : String) :
    ((compatibilidad_tipos.lookup objetivo).getD []) = conjunto_ampliacion objetivo := by
  rcases eq_or_ne objetivo ("int") with h1 | h1
  · simp [compatibilidad_tipos, conjunto_ampliacion, List.lookup, h1]
  rcases eq_or_ne objetivo ("float") with h2 | h2
  · simp [compatibilidad_tipos, conjunto_ampliacion, List.lookup, h2]
  rcases eq_or_ne objetivo ("double") with h3 | h3
  · simp [compatibilidad_tipos, conjunto_ampliacion, List.lookup, h3]
  rcases eq_or_ne objetivo ("bool") with h4 | h4
  · simp [compatibilidad_tipos, conjunto_ampliacion, List.lookup, h4]
  rcases eq_or_ne objetivo ("char") with h5 | h5
  · simp [compatibilidad_tipos, conjunto_ampliacion, List.lookup, h5]
  rcases eq_or_ne objetivo ("string") with h6 | h6
  · simp [compatibilidad_tipos, conjunto_ampliacion, List.lookup, h6]
  simp [compatibilidad_tipos, conjunto_ampliacion, List.lookup, h1, h2, h3, h4, h5, h6,
    beq_eq_false_iff_ne.mpr h1, beq_eq_false_iff_ne.mpr h2, beq_eq_false_iff_ne.mpr h3,
    beq_eq_false_iff_ne.mpr h4, beq_eq_false_iff_ne.mpr h5, beq_eq_false_iff_ne.mpr h6]

theorem verificar_eq_espec (tabla : List (String × Variable)) (objetivo : String) (tok : Token) :
    verificar_compatibilidad_tipos tabla objetivo tok =
      compatible_segun_espec tabla objetivo tok := by
  unfold verificar_compatibilidad_tipos compatible_segun_espec
  cases tok.tipo <;> try rfl
  case IDENTIFICADOR =>
    cases buscar tabla tok.valor <;> simp [lookup_compatibilidad_eq]

theorem inicializacion_errores (s : EstadoSem) (nombre : String) (v : Variable) (tok : Token)
    (h1 : buscar s.tabla_simbolos nombre = some v)
    (h2 : s.tokens[s.posicion + 1]? = some tok) :
    (analizar_inicializacion s nombre).errores =
      (if compatible_segun_espec s.tabla_simbolos v.tipo tok then s.errores
       else s.errores ++ [error_sem ("Tipo incompatible en inicialización de \x27" ++ v.nombre ++
         "\x27 en línea " ++ a_cadena v.linea_declaracion) v.linea_declaracion]) := by
  unfold analizar_inicializacion
  simp only [h1, h2, verificar_eq_espec]
  cases hc : compatible_segun_espec s.tabla_simbolos v.tipo tok <;> simp [hc]

theorem asignacion_errores (s : EstadoSem) (nombre : String) (v : Variable) (tok : Token)
    (h1 : buscar s.tabla_simbolos nombre = some v)
    (h2 : s.tokens[s.posicion + 1]? = some tok) :
    (analizar_asignacion s nombre).errores =
      (if compatible_segun_espec s.tabla_simbolos v.tipo tok then s.errores
       else s.errores ++ [error_sem ("Tipo incompatible en asignación a \x27" ++ nombre ++
         "\x27 en línea " ++ a_cadena tok.linea) tok.linea]) := by
  unfold analizar_asignacion
  simp only [h1, h2, verificar_eq_espec]
  cases hc : compatible_segun_espec s.tabla_simbolos v.tipo tok <;> simp [hc]

/- ------------------------------------------------------------------ -/
/- Claim theorems.                                                     -/
/- ------------------------------------------------------------------ -/

/-- C1: the type-compatibility check used by both initialization and
plain assignment accepts exactly the pairs of the §4.2 table (a Number
with a dot only with float/double; a Number without a dot with
int/float/double; a Boolean only with bool; a String only with string;
an Identifier of declared type T with targets whose widening set contains
T; anything else never), and a "Tipo incompatible" error is emitted by
the initialization and assignment handlers exactly on the incompatible
pairs. -/
theorem c1_tabla_compatibilidad_correcta :
    (∀ tabla objetivo tok, verificar_compatibilidad_tipos tabla objetivo tok =
        compatible_segun_espec tabla objetivo tok) ∧
    (∀ s nombre v tok, buscar s.tabla_simbolos nombre = some v →
        s.tokens[s.posicion + 1]? = some tok →
        (analizar_inicializacion s nombre).errores =
          (if compatible_segun_espec s.tabla_simbolos v.tipo tok then s.errores
           else s.errores ++ [error_sem ("Tipo incompatible en inicialización de \x27" ++
             v.nombre ++ "\x27 en línea " ++ a_cadena v.linea_declaracion)
             v.linea_declaracion])) ∧
    (∀ s nombre v tok, buscar s.tabla_simbolos nombre = some v →
        s.tokens[s.posicion + 1]? = some tok →
        (analizar_asignacion s nombre).errores =
          (if compatible_segun_espec s.tabla_simbolos v.tipo tok then s.errores
           else s.errores ++ [error_sem ("Tipo incompatible en asignación a \x27" ++ nombre ++
             "\x27 en línea " ++ a_cadena tok.linea) tok.linea])) :=
  ⟨verificar_eq_espec,
   fun s nombre v tok h1 h2 => inicializacion_errores s nombre v tok h1 h2,
   fun s nombre v tok h1 h2 => asignacion_errores s nombre v tok h1 h2⟩

theorem c1_tabla_compatibilidad_correcta_witness :
    buscar estado_ejemplo.tabla_simbolos ("x") = some var_ejemplo ∧
    estado_ejemplo.tokens[estado_ejemplo.posicion + 1]? = some token_cinco ∧
    (analizar_inicializacion estado_ejemplo ("x")).errores =
      (if compatible_segun_espec estado_ejemplo.tabla_simbolos var_ejemplo.tipo token_cinco then
        estado_ejemplo.errores
       else estado_ejemplo.errores ++ [error_sem ("Tipo incompatible en inicialización de \x27" ++
         var_ejemplo.nombre ++ "\x27 en línea " ++ a_cadena var_ejemplo.linea_declaracion)
         var_ejemplo.linea_declaracion]) ∧
    (analizar_asignacion estado_ejemplo ("x")).errores =
      (if compatible_segun_espec estado_ejemplo.tabla_simbolos var_ejemplo.tipo token_cinco then
        estado_ejemplo.errores
       else estado_ejemplo.errores ++ [error_sem ("Tipo incompatible en asignación a \x27" ++
         "x" ++ "\x27 en línea " ++ a_cadena token_cinco.linea) token_cinco.linea]) :=
  ⟨by decide, by decide,
   c1_tabla_compatibilidad_correcta.2.1 estado_ejemplo ("x") var_ejemplo token_cinco
     (by decide) (by decide),
   c1_tabla_compatibilidad_correcta.2.2 estado_ejemplo ("x") var_ejemplo token_cinco
     (by decide) (by decide)⟩

/-- C6: whenever tokenization yields no tokens (the empty string
included), `analizar` records exactly the single error "No se
encontraron tokens válidos" and stops with an empty symbol table and an
empty warning list: the final state is the cleared state with that one
error. -/
theorem c6_sin_tokens :
    ∀ (s : EstadoSem) (codigo : List Char), tokenizar codigo = [] →
      analizar s codigo =
        ⟨[], [error_sem ("No se encontraron tokens válidos") 1], [], [], 0⟩ := by
  intro s codigo h
  simp [analizar, limpiar_estado, h]

theorem c6_sin_tokens_witness :
    tokenizar ("".toList) = [] ∧
    analizar estado_inicial ("".toList) =
      ⟨[], [error_sem ("No se encontraron tokens válidos") 1], [], [], 0⟩ :=
  ⟨by decide, c6_sin_tokens estado_inicial ("".toList) (by decide)⟩

/-- C8: analysis is deterministic and history-independent: `analizar`
clears every mutable field before doing anything, so two runs on the
same source text give the same symbol table, errors and warnings no
matter what state (fresh or left over from a different input) the
analyzer context starts in. -/
theorem c8_determinismo :
    ∀ (s₁ s₂ : EstadoSem) (codigo : List Char), analizar s₁ codigo = analizar s₂ codigo :=
  fun _ _ _ => rfl

theorem estructura_control_preserva (s : EstadoSem) (kw : Token) :
    (analizar_estructura_control s kw).posicion = s.posicion ∧
    (analizar_estructura_control s kw).tokens = s.tokens ∧
    (analizar_estructura_control s kw).tabla_simbolos = s.tabla_simbolos ∧
    (analizar_estructura_control s kw).advertencias = s.advertencias := by
  unfold analizar_estructura_control
  by_cases h : ((s.tokens.drop (s.posicion + 1)).any
      (fun t => t.tipo == TipoToken.PARENTESIS && t.valor == "(")) = true
  · simp [h]
  · simp [h]

theorem parentesis_encontrado_iff (s : EstadoSem) :
    ((s.tokens.drop (s.posicion + 1)).any
        (fun t => t.tipo == TipoToken.PARENTESIS && t.valor == "(")) = true ↔
      ∃ j tk, s.posicion < j ∧ s.tokens[j]? = some tk ∧
        tk.tipo = TipoToken.PARENTESIS ∧ tk.valor = "(" := by
  rw [List.any_eq_true]
  constructor
  · rintro ⟨t, ht, hp⟩
    rcases List.mem_iff_getElem?.mp ht with ⟨i, hi⟩
    rw [List.getElem?_drop] at hi
    rcases Bool.and_eq_true .. |>.mp hp with ⟨h1, h2⟩
    exact ⟨s.posicion + 1 + i, t, by omega, hi, by simpa using h1, by simpa using h2⟩
  · rintro ⟨j, tk, hj, hget, htipo, hval⟩
    refine ⟨tk, List.mem_iff_getElem?.mpr ⟨j - (s.posicion + 1), ?_⟩, by simp [htipo, hval]⟩
    rw [List.getElem?_drop]
    have hidx : s.posicion + 1 + (j - (s.posicion + 1)) = j := by omega
    rw [hidx]
    exact hget

/-- C3: a second declaration of an already-declared name is rejected:
the handler emits the "ya declarada" error, adds no symbol and leaves
every existing entry (its declared type and declaration line included)
untouched; on `int x; int x;` the symbol table keeps exactly the one
entry for `x`, still of type `int` declared at line 1. -/
theorem c3_una_entrada_por_nombre :
    (∀ (s : EstadoSem) (token_tipo token_nombre : Token),
        s.tokens[s.posicion]? = some token_tipo →
        s.tokens[s.posicion + 1]? = some token_nombre →
        token_nombre.tipo = TipoToken.IDENTIFICADOR →
        (buscar s.tabla_simbolos token_nombre.valor).isSome →
        (analizar_declaracion s).tabla_simbolos = s.tabla_simbolos ∧
        (analizar_declaracion s).errores = s.errores ++
          [error_sem ("Variable \x27" ++ token_nombre.valor ++ "\x27 ya declarada en línea " ++
            a_cadena token_nombre.linea) token_nombre.linea]) ∧
    ((analizar estado_inicial ("int x; int x;".toList)).tabla_simbolos.map Prod.fst = ["x"]) ∧
    ((buscar (analizar estado_inicial ("int x; int x;".toList)).tabla_simbolos ("x")).map
        Variable.tipo = some ("int")) ∧
    ((buscar (analizar estado_inicial ("int x; int x;".toList)).tabla_simbolos ("x")).map
        Variable.linea_declaracion = some 1) := by
  refine ⟨?_, by decide, by decide, by decide⟩
  intro s token_tipo token_nombre h0 h1 hident hdup
  unfold analizar_declaracion
  simp [h0, h1, hident, hdup]

theorem c3_una_entrada_por_nombre_witness :
    estado_redeclaracion.tokens[estado_redeclaracion.posicion]? =
      some ⟨TipoToken.TIPO_DATO, "int", 2, 0⟩ ∧
    estado_redeclaracion.tokens[estado_redeclaracion.posicion + 1]? =
      some ⟨TipoToken.IDENTIFICADOR, "x", 2, 4⟩ ∧
    (analizar_declaracion estado_redeclaracion).tabla_simbolos =
      estado_redeclaracion.tabla_simbolos ∧
    (analizar_declaracion estado_redeclaracion).errores = estado_redeclaracion.errores ++
      [error_sem ("Variable \x27" ++ "x" ++ "\x27 ya declarada en línea " ++ a_cadena 2) 2] :=
  ⟨by decide, by decide,
   (c3_una_entrada_por_nombre.1 estado_redeclaracion ⟨TipoToken.TIPO_DATO, "int", 2, 0⟩
     ⟨TipoToken.IDENTIFICADOR, "x", 2, 4⟩ (by decide) (by decide) (by decide) (by decide)).1,
   (c3_una_entrada_por_nombre.1 estado_redeclaracion ⟨TipoToken.TIPO_DATO, "int", 2, 0⟩
     ⟨TipoToken.IDENTIFICADOR, "x", 2, 4⟩ (by decide) (by decide) (by decide) (by decide)).2⟩

/-- C4 counterexample: on the input `int` the next token after the type
keyword is absent, and the declaration handler reports "Declaración
incompleta en línea 1" — not the "Se esperaba un identificador después
de 'int'" message the claim asserts for the absent case. -/
theorem c4_contraejemplo :
    (analizar estado_inicial ("int".toList)).errores =
      [error_sem ("Declaración incompleta en línea 1") 1] ∧
    ¬ (("Se esperaba un identificador después de \x27int\x27 en línea 1") ∈
        (analizar estado_inicial ("int".toList)).errores.map Error.mensaje) :=
  ⟨by decide, by decide⟩

/-- C4 as amended: when the declaration handler is triggered and the
next token is absent it emits "Declaración incompleta en línea L";
when the next token exists but is not an identifier it emits "Se
esperaba un identificador después de '<type>' en línea L"; in both
cases L is the type keyword's line, no symbol is added, and the cursor
stops one past the type token. -/
theorem c4_identificador_esperado :
    ∀ (s : EstadoSem) (token_tipo : Token), s.tokens[s.posicion]? = some token_tipo →
      (s.tokens[s.posicion + 1]? = none →
        analizar_declaracion s = ⟨s.tabla_simbolos,
          s.errores ++ [error_sem ("Declaración incompleta en línea " ++
            a_cadena token_tipo.linea) token_tipo.linea],
          s.advertencias, s.tokens, s.posicion + 1⟩) ∧
      (∀ token_nombre, s.tokens[s.posicion + 1]? = some token_nombre →
        token_nombre.tipo ≠ TipoToken.IDENTIFICADOR →
        analizar_declaracion s = ⟨s.tabla_simbolos,
          s.errores ++ [error_sem ("Se esperaba un identificador después de \x27" ++
            token_tipo.valor ++ "\x27 en línea " ++ a_cadena token_tipo.linea)
            token_tipo.linea],
          s.advertencias, s.tokens, s.posicion + 1⟩) := by
  intro s token_tipo h0
  constructor
  · intro h1
    unfold analizar_declaracion
    simp [h0, h1]
  · intro token_nombre h1 hident
    unfold analizar_declaracion
    simp [h0, h1, hident]

theorem c4_identificador_esperado_witness :
    estado_decl_incompleta.tokens[estado_decl_incompleta.posicion]? = some token_int ∧
    estado_decl_incompleta.tokens[estado_decl_incompleta.posicion + 1]? = none ∧
    analizar_declaracion estado_decl_incompleta =
      ⟨estado_decl_incompleta.tabla_simbolos,
       estado_decl_incompleta.errores ++
          [error_sem ("Declaración incompleta en línea " ++ a_cadena token_int.linea)
            token_int.linea],
       estado_decl_incompleta.advertencias, estado_decl_incompleta.tokens,
       estado_decl_incompleta.posicion + 1⟩ ∧
    estado_decl_sin_ident.tokens[estado_decl_sin_ident.posicion + 1]? = some token_punto_coma ∧
    analizar_declaracion estado_decl_sin_ident =
      ⟨estado_decl_sin_ident.tabla_simbolos,
       estado_decl_sin_ident.errores ++
          [error_sem ("Se esperaba un identificador después de \x27" ++ token_int.valor ++
            "\x27 en línea " ++ a_cadena token_int.linea) token_int.linea],
       estado_decl_sin_ident.advertencias, estado_decl_sin_ident.tokens,
       estado_decl_sin_ident.posicion + 1⟩ :=
  ⟨by decide, by decide,
   (c4_identificador_esperado estado_decl_incompleta token_int (by decide)).1 (by decide),
   by decide,
   (c4_identificador_esperado estado_decl_sin_ident token_int (by decide)).2 token_punto_coma
     (by decide) (by decide)⟩

/-- C5: the control-structure handler scans the whole remaining token
sequence past the keyword for an opening parenthesis: when one exists at
some later index the state is returned unchanged (nothing consumed), and
when none exists the single error "Se esperaba '(' después de
'<keyword>'" at the keyword's line is appended; the keyword dispatch
itself advances the cursor exactly one token, so a parenthesis is never
consumed; on `if x > 0 { }` the error for `if` is emitted. -/
theorem c5_estructura_control :
    (∀ (s : EstadoSem) (kw : Token),
        ((∃ j tk, s.posicion < j ∧ s.tokens[j]? = some tk ∧
            tk.tipo = TipoToken.PARENTESIS ∧ tk.valor = "(") →
          analizar_estructura_control s kw = s) ∧
        (¬ (∃ j tk, s.posicion < j ∧ s.tokens[j]? = some tk ∧
            tk.tipo = TipoToken.PARENTESIS ∧ tk.valor = "(") →
          analizar_estructura_control s kw = { s with errores := s.errores ++
            [error_sem ("Se esperaba \x27(\x27 después de \x27" ++ kw.valor ++
              "\x27 en línea " ++ a_cadena kw.linea) kw.linea] })) ∧
    (∀ (s : EstadoSem) (tok : Token), s.tokens[s.posicion]? = some tok →
        ["if", "while", "for"].contains tok.valor = true →
        (analizar_palabra_clave s).posicion = s.posicion + 1 ∧
        (analizar_palabra_clave s).tokens = s.tokens ∧
        (analizar_palabra_clave s).tabla_simbolos = s.tabla_simbolos) ∧
    (("Se esperaba \x27(\x27 después de \x27if\x27 en línea 1") ∈
      (analizar estado_inicial ("if x > 0 \x7b \x7d".toList)).errores.map Error.mensaje) := by
  refine ⟨?_, ?_, by decide⟩
  · intro s kw
    constructor
    · intro hex
      unfold analizar_estructura_control
      simp [(parentesis_encontrado_iff s).mpr hex]
    · intro hnex
      have hfalse :
          ((s.tokens.drop (s.posicion + 1)).any
            (fun t => t.tipo == TipoToken.PARENTESIS && t.valor == "(")) = false := by
        rcases Bool.eq_false_or_eq_true ((s.tokens.drop (s.posicion + 1)).any
          (fun t => t.tipo == TipoToken.PARENTESIS && t.valor == "(")) with h | h
        · exact absurd ((parentesis_encontrado_iff s).mp h) hnex
        · exact h
      unfold analizar_estructura_control
      simp [hfalse]
  · intro s tok h0 hval
    have hp := estructura_control_preserva s tok
    have hval2 : tok.valor = "if" ∨ tok.valor = "while" ∨ tok.valor = "for" := by
      simpa using hval
    unfold analizar_palabra_clave
    simp [h0, hval2, hp.1, hp.2.1, hp.2.2.1]

theorem c5_estructura_control_witness :
    analizar_estructura_control estado_si_con_parentesis token_si = estado_si_con_parentesis ∧
    analizar_estructura_control estado_si_sin_parentesis token_si =
      { estado_si_sin_parentesis with errores := estado_si_sin_parentesis.errores ++
          [error_sem ("Se esperaba \x27(\x27 después de \x27" ++ token_si.valor ++
            "\x27 en línea " ++ a_cadena token_si.linea) token_si.linea] } ∧
    estado_si_con_parentesis.tokens[estado_si_con_parentesis.posicion]? = some token_si ∧
    (analizar_palabra_clave estado_si_con_parentesis).posicion =
      estado_si_con_parentesis.posicion + 1 :=
  ⟨(c5_estructura_control.1 estado_si_con_parentesis token_si).1
      ⟨1, ⟨TipoToken.PARENTESIS, "(", 1, 3⟩, by decide, by decide, rfl, rfl⟩,
   (c5_estructura_control.1 estado_si_sin_parentesis token_si).2 (by
      rintro ⟨j, tk, hj, hget, -, -⟩
      have hj0 : 0 < j := hj
      have hlen : estado_si_sin_parentesis.tokens.length ≤ j := by
        have : estado_si_sin_parentesis.tokens.length = 1 := by decide
        omega
      rw [List.getElem?_eq_none hlen] at hget
      exact Option.noConfusion hget),
   by decide,
   (c5_estructura_control.2.1 estado_si_con_parentesis token_si (by decide) (by decide)).1⟩

/-- C2 counterexample: on `int z; int w = z;` the right-hand-side
occurrence of `z` is consumed inside the initialization handler, which
never touches used flags, so after the run `z.usada` is false — not true
as the claim states — and the warnings are the two "declarada pero no
usada" messages, with no "z usada sin inicializar" warning. -/
theorem c2_contraejemplo :
    ((buscar (analizar estado_inicial ("int z; int w = z;".toList)).tabla_simbolos
        ("z")).map Variable.usada = some false) ∧
    ((analizar estado_inicial ("int z; int w = z;".toList)).advertencias.map Error.mensaje =
      ["Variable \x27z\x27 declarada pero no usada",
       "Variable \x27w\x27 declarada pero no usada"]) :=
  ⟨by decide, by decide⟩

theorem map_usada_actualizar (tabla : List (String × Variable)) (n : String) :
    (actualizar tabla n (fun v => { v with inicializada := true })).map
        (fun p => (p.1, p.2.usada)) =
      tabla.map (fun p => (p.1, p.2.usada)) := by
  induction tabla with
  | nil => rfl
  | cons p resto ih => by_cases h : p.1 = n <;> simp [actualizar, h, ih]

theorem inicializacion_preserva_usada (s : EstadoSem) (nombre : String) :
    (analizar_inicializacion s nombre).tabla_simbolos.map (fun p => (p.1, p.2.usada)) =
      s.tabla_simbolos.map (fun p => (p.1, p.2.usada)) := by
  unfold analizar_inicializacion
  cases hb : buscar s.tabla_simbolos nombre with
  | none => simp [hb]
  | some v =>
    cases ht : s.tokens[s.posicion + 1]? with
    | none => simp [hb, ht]
    | some tok =>
      by_cases hc : verificar_compatibilidad_tipos s.tabla_simbolos v.tipo tok
      · simp [hb, ht, hc, map_usada_actualizar]
      · simp [hb, ht, hc]

theorem asignacion_preserva_usada (s : EstadoSem) (nombre : String) :
    (analizar_asignacion s nombre).tabla_simbolos.map (fun p => (p.1, p.2.usada)) =
      s.tabla_simbolos.map (fun p => (p.1, p.2.usada)) := by
  unfold analizar_asignacion
  cases ht : s.tokens[s.posicion + 1]? with
  | none => simp [ht]
  | some tok =>
    cases hb : buscar s.tabla_simbolos nombre with
    | none => simp [ht, hb]
    | some v =>
      by_cases hc : verificar_compatibilidad_tipos s.tabla_simbolos v.tipo tok
      · simp [ht, hb, hc, map_usada_actualizar]
      · simp [ht, hb, hc]

/-- C2 as amended: a symbol's used flag is set only when its name is an
Identifier token reached directly by the dispatch loop; the single
right-hand-side token of an initialization or assignment is consumed by
those handlers, which preserve every symbol's used flag.  On
`int z; int w = z;` this leaves z.usada = false and z.inicializada =
false, w.inicializada = true, and the warnings are exactly "z declarada
pero no usada" followed by "w declarada pero no usada". -/
theorem c2_usada_solo_en_despacho :
    (∀ (s : EstadoSem) (nombre : String),
        (analizar_inicializacion s nombre).tabla_simbolos.map (fun p => (p.1, p.2.usada)) =
          s.tabla_simbolos.map (fun p => (p.1, p.2.usada))) ∧
    (∀ (s : EstadoSem) (nombre : String),
        (analizar_asignacion s nombre).tabla_simbolos.map (fun p => (p.1, p.2.usada)) =
          s.tabla_simbolos.map (fun p => (p.1, p.2.usada))) ∧
    (buscar (analizar estado_inicial ("int z; int w = z;".toList)).tabla_simbolos ("z") =
      some ⟨"z", "int", 1, false, false⟩) ∧
    (buscar (analizar estado_inicial ("int z; int w = z;".toList)).tabla_simbolos ("w") =
      some ⟨"w", "int", 1, true, false⟩) ∧
    ((analizar estado_inicial ("int z; int w = z;".toList)).advertencias.map Error.mensaje =
      ["Variable \x27z\x27 declarada pero no usada",
       "Variable \x27w\x27 declarada pero no usada"]) :=
  ⟨inicializacion_preserva_usada, asignacion_preserva_usada, by decide, by decide, by decide⟩

theorem mapfst_actualizar (tabla : List (String × Variable)) (n : String) (f : Variable → Variable) :
    (actualizar tabla n f).map Prod.fst = tabla.map Prod.fst := by
  induction tabla with
  | nil => rfl
  | cons p resto ih => by_cases h : p.1 = n <;> simp [actualizar, h, ih]

theorem inicializacion_nombres (s : EstadoSem) (nombre : String) :
    (analizar_inicializacion s nombre).tabla_simbolos.map Prod.fst =
      s.tabla_simbolos.map Prod.fst := by
  unfold analizar_inicializacion
  cases hb : buscar s.tabla_simbolos nombre with
  | none => simp [hb]
  | some v =>
    cases ht : s.tokens[s.posicion + 1]? with
    | none => simp [hb, ht]
    | some tok =>
      by_cases hc : verificar_compatibilidad_tipos s.tabla_simbolos v.tipo tok
      · simp [hb, ht, hc, mapfst_actualizar]
      · simp [hb, ht, hc]

theorem asignacion_nombres (s : EstadoSem) (nombre : String) :
    (analizar_asignacion s nombre).tabla_simbolos.map Prod.fst =
      s.tabla_simbolos.map Prod.fst := by
  unfold analizar_asignacion
  cases ht : s.tokens[s.posicion + 1]? with
  | none => simp [ht]
  | some tok =>
    cases hb : buscar s.tabla_simbolos nombre with
    | none => simp [ht, hb]
    | some v =>
      by_cases hc : verificar_compatibilidad_tipos s.tabla_simbolos v.tipo tok
      · simp [ht, hb, hc, mapfst_actualizar]
      · simp [ht, hb, hc]

theorem identificador_nombres (s : EstadoSem) :
    (analizar_identificador s).tabla_simbolos.map Prod.fst =
      s.tabla_simbolos.map Prod.fst := by
  unfold analizar_identificador
  cases h0 : s.tokens[s.posicion]? with
  | none => simp
  | some tok =>
    by_cases hb : (buscar s.tabla_simbolos tok.valor).isNone
    · simp [h0, hb]
    · cases h1 : s.tokens[s.posicion + 1]? with
      | none => simp [h0, hb, h1, mapfst_actualizar]
      | some sig =>
        by_cases ha : sig.tipo = TipoToken.ASIGNACION
        · simp only [h0, hb, h1, ha, if_true, if_false]
          simp [asignacion_nombres, mapfst_actualizar]
        · simp [h0, hb, h1, ha, mapfst_actualizar]

theorem palabra_clave_nombres (s : EstadoSem) :
    (analizar_palabra_clave s).tabla_simbolos.map Prod.fst =
      s.tabla_simbolos.map Prod.fst := by
  unfold analizar_palabra_clave
  cases h0 : s.tokens[s.posicion]? with
  | none => simp
  | some tok =>
    by_cases hv : tok.valor = "if" ∨ tok.valor = "while" ∨ tok.valor = "for"
    · simp [h0, hv, (estructura_control_preserva s tok).2.2.1]
    · simp [h0, hv]

theorem declaracion_nombres_exito (s : EstadoSem) (tt tn : Token)
    (h0 : s.tokens[s.posicion]? = some tt) (h1 : s.tokens[s.posicion + 1]? = some tn)
    (hident : tn.tipo = TipoToken.IDENTIFICADOR)
    (hnuevo : buscar s.tabla_simbolos tn.valor = none) :
    (analizar_declaracion s).tabla_simbolos.map Prod.fst =
      s.tabla_simbolos.map Prod.fst ++ [tn.valor] := by
  unfold analizar_declaracion
  simp only [h0, h1, hident, hnuevo]
  cases h2 : s.tokens[s.posicion + 2]? with
  | none => simp [h2]
  | some sig =>
    by_cases ha : sig.tipo = TipoToken.ASIGNACION
    · have h2b : s.tokens[s.posicion + 1 + 1]? = some sig := by
        have : s.posicion + 1 + 1 = s.posicion + 2 := by omega
        rw [this]; exact h2
      simp [h2b, ha, inicializacion_nombres]
    · have h2b : s.tokens[s.posicion + 1 + 1]? = some sig := by
        have : s.posicion + 1 + 1 = s.posicion + 2 := by omega
        rw [this]; exact h2
      simp [h2b, ha]

theorem declaracion_nombres (s : EstadoSem) :
    ∃ t, (analizar_declaracion s).tabla_simbolos.map Prod.fst =
      s.tabla_simbolos.map Prod.fst ++ t := by
  unfold analizar_declaracion
  cases h0 : s.tokens[s.posicion]? with
  | none => exact ⟨[], by simp⟩
  | some tt =>
    cases h1 : s.tokens[s.posicion + 1]? with
    | none => exact ⟨[], by simp [h1]⟩
    | some tn =>
      by_cases hident : tn.tipo = TipoToken.IDENTIFICADOR
      · by_cases hnuevo : (buscar s.tabla_simbolos tn.valor).isSome
        · exact ⟨[], by simp [h1, hident, hnuevo]⟩
        · refine ⟨[tn.valor], ?_⟩
          simp only [h1, hident, hnuevo]
          cases h2 : s.tokens[s.posicion + 1 + 1]? with
          | none => simp [h2, hnuevo]
          | some sig =>
            by_cases ha : sig.tipo = TipoToken.ASIGNACION
            · simp [h2, ha, hnuevo, inicializacion_nombres]
            · simp [h2, ha, hnuevo]
      · exact ⟨[], by simp [h1, hident]⟩

theorem paso_nombres (s : EstadoSem) (tok : Token) :
    ∃ t, (paso_analisis s tok).tabla_simbolos.map Prod.fst =
      s.tabla_simbolos.map Prod.fst ++ t := by
  unfold paso_analisis
  by_cases h1 : tok.tipo = TipoToken.TIPO_DATO
  · simpa [h1] using declaracion_nombres s
  by_cases h2 : tok.tipo = TipoToken.IDENTIFICADOR
  · exact ⟨[], by simp [h1, h2, identificador_nombres]⟩
  by_cases h3 : tok.tipo = TipoToken.PALABRA_CLAVE
  · exact ⟨[], by simp [h1, h2, h3, palabra_clave_nombres]⟩
  · exact ⟨[], by simp [h1, h2, h3]⟩

theorem analizar_tokens_nombres (fuel : Nat) :
    ∀ s : EstadoSem, ∃ t, (analizar_tokens fuel s).tabla_simbolos.map Prod.fst =
      s.tabla_simbolos.map Prod.fst ++ t := by
  induction fuel with
  | zero => exact fun s => ⟨[], by simp [analizar_tokens]⟩
  | succ fuel ih =>
    intro s
    unfold analizar_tokens
    cases h0 : s.tokens[s.posicion]? with
    | none => exact ⟨[], by simp⟩
    | some tok =>
      rcases paso_nombres s tok with ⟨t1, ht1⟩
      rcases ih (paso_analisis s tok) with ⟨t2, ht2⟩
      exact ⟨t1 ++ t2, by rw [ht2, ht1, List.append_assoc]⟩

theorem filterMap_si {α β : Type} (l : List α) (pred : α → Bool) (g : α → β) :
    (l.filterMap fun p => if pred p then some (g p) else none) = (l.filter pred).map g := by
  induction l with
  | nil => rfl
  | cons p resto ih => cases h : pred p <;> simp [h, ih]

theorem filterMap_si_neg {α β : Type} (l : List α) (pred : α → Bool) (g : α → β) :
    (l.filterMap fun p => if pred p then none else some (g p)) =
      (l.filter (fun p => !pred p)).map g := by
  induction l with
  | nil => rfl
  | cons p resto ih => cases h : pred p <;> simp [h, ih]

theorem filtro_no_usadas (tabla : List (String × Variable)) :
    (tabla.filterMap fun p => if p.2.usada then none else some (advertencia_no_usada p.2)) =
      (tabla.filter (fun p => !p.2.usada)).map (fun p => advertencia_no_usada p.2) :=
  filterMap_si_neg tabla (fun p => p.2.usada) (fun p => advertencia_no_usada p.2)

theorem filtro_no_inicializadas (tabla : List (String × Variable)) :
    (tabla.filterMap fun p =>
        if p.2.usada && !p.2.inicializada then some (advertencia_no_inicializada p.2) else none) =
      (tabla.filter (fun p => p.2.usada && !p.2.inicializada)).map
        (fun p => advertencia_no_inicializada p.2) :=
  filterMap_si tabla (fun p => p.2.usada && !p.2.inicializada)
    (fun p => advertencia_no_inicializada p.2)

/-- C7: the symbol table only ever grows by appending at the end (its
iteration order is the order of first successful declaration: the
dispatch loop only extends the key list on the right, and a successful
declaration appends exactly the newly declared name); the post-scan
warnings are the "declarada pero no usada" warnings in table order
followed by the "usada sin inicializar" warnings in table order; and no
table entry can be selected by both checks, since the first requires
usada = false and the second usada = true. -/
theorem c7_orden_de_insercion :
    (∀ (fuel : Nat) (s : EstadoSem), ∃ t,
        (analizar_tokens fuel s).tabla_simbolos.map Prod.fst =
          s.tabla_simbolos.map Prod.fst ++ t) ∧
    (∀ (s : EstadoSem) (tt tn : Token), s.tokens[s.posicion]? = some tt →
        s.tokens[s.posicion + 1]? = some tn →
        tn.tipo = TipoToken.IDENTIFICADOR →
        buscar s.tabla_simbolos tn.valor = none →
        (analizar_declaracion s).tabla_simbolos.map Prod.fst =
          s.tabla_simbolos.map Prod.fst ++ [tn.valor]) ∧
    (∀ s : EstadoSem,
        (verificar_variables_no_inicializadas (verificar_variables_no_usadas s)).advertencias =
          s.advertencias ++
            (s.tabla_simbolos.filter (fun p => !p.2.usada)).map
              (fun p => advertencia_no_usada p.2) ++
            (s.tabla_simbolos.filter (fun p => p.2.usada && !p.2.inicializada)).map
              (fun p => advertencia_no_inicializada p.2)) ∧
    (∀ (tabla : List (String × Variable)) (p : String × Variable),
        p ∈ tabla.filter (fun q => !q.2.usada) →
        p ∉ tabla.filter (fun q => q.2.usada && !q.2.inicializada)) := by
  refine ⟨analizar_tokens_nombres, declaracion_nombres_exito, ?_, ?_⟩
  · intro s
    simp only [verificar_variables_no_usadas, verificar_variables_no_inicializadas]
    rw [filtro_no_usadas, filtro_no_inicializadas]
  · intro tabla p h1 h2
    have hu1 : (!p.2.usada) = true := (List.mem_filter.mp h1).2
    have hu2 : (p.2.usada && !p.2.inicializada) = true := (List.mem_filter.mp h2).2
    rcases Bool.and_eq_true .. |>.mp hu2 with ⟨hu2a, -⟩
    rw [hu2a] at hu1
    exact Bool.noConfusion hu1

theorem c7_orden_de_insercion_witness :
    estado_decl_exito.tokens[estado_decl_exito.posicion]? = some token_int ∧
    estado_decl_exito.tokens[estado_decl_exito.posicion + 1]? =
      some ⟨TipoToken.IDENTIFICADOR, "x", 1, 4⟩ ∧
    buscar estado_decl_exito.tabla_simbolos ("x") = none ∧
    (analizar_declaracion estado_decl_exito).tabla_simbolos.map Prod.fst =
      estado_decl_exito.tabla_simbolos.map Prod.fst ++ ["x"] :=
  ⟨by decide, by decide, by decide,
   c7_orden_de_insercion.2.1 estado_decl_exito token_int ⟨TipoToken.IDENTIFICADOR, "x", 1, 4⟩
     (by decide) (by decide) (by decide) (by decide)⟩

theorem void_incompatible (tabla : List (String × Variable)) (tok : Token) :
    verificar_compatibilidad_tipos tabla ("void") tok = false := by
  unfold verificar_compatibilidad_tipos
  cases tok.tipo <;> try rfl
  case NUMERO =>
    by_cases h : tok.valor.toList.contains '.' <;> simp [h]
  case IDENTIFICADOR =>
    cases hb : buscar tabla tok.valor with
    | none => rfl
    | some origen =>
      have hvoid : (List.lookup ("void") compatibilidad_tipos) = none := by decide
      simp [hvoid]

theorem buscar_mem (tabla : List (String × Variable)) (n : String) (v : Variable)
    (h : buscar tabla n = some v) : (n, v) ∈ tabla := by
  induction tabla with
  | nil => exact Option.noConfusion h
  | cons q resto ih =>
    by_cases hq : q.1 = n
    · rw [buscar, if_pos hq] at h
      rcases Option.some.inj h with rfl
      rw [← hq]
      exact List.mem_cons_self q resto
    · rw [buscar, if_neg hq] at h
      exact List.mem_cons_of_mem q (ih h)

theorem mem_actualizar (tabla : List (String × Variable)) (n : String) (f : Variable → Variable) :
    ∀ p ∈ actualizar tabla n f, p ∈ tabla ∨ ∃ v, buscar tabla n = some v ∧ p = (n, f v) := by
  induction tabla with
  | nil => intro p hp; exact absurd hp (by simp [actualizar])
  | cons q resto ih =>
    intro p hp
    by_cases hq : q.1 = n
    · rw [actualizar, if_pos hq] at hp
      rcases List.mem_cons.mp hp with h1 | h1
      · right
        exact ⟨q.2, by rw [buscar, if_pos hq], by rw [h1, hq]⟩
      · left
        exact List.mem_cons_of_mem q h1
    · rw [actualizar, if_neg hq] at hp
      rcases List.mem_cons.mp hp with h1 | h1
      · left
        rw [h1]
        exact List.mem_cons_self q resto
      · rcases ih p h1 with h2 | ⟨v, hv, hpv⟩
        · left
          exact List.mem_cons_of_mem q h2
        · right
          exact ⟨v, by rw [buscar, if_neg hq]; exact hv, hpv⟩

/-- The run invariant behind C10: no symbol of declared type `void` is
ever marked initialized. -/
def tabla_sin_void_inicializada (tabla : List (String × Variable)) : Prop :=
  ∀ p ∈ tabla, p.2.tipo = "void" → p.2.inicializada = false

theorem actualizar_usada_sin_void (tabla : List (String × Variable)) (n : String)
    (hs : tabla_sin_void_inicializada tabla) :
    tabla_sin_void_inicializada (actualizar tabla n (fun v => { v with usada := true })) := by
  intro p hp htipo
  rcases mem_actualizar tabla n _ p hp with h1 | ⟨v, hv, hpv⟩
  · exact hs p h1 htipo
  · subst hpv
    exact hs (n, v) (buscar_mem tabla n v hv) htipo

theorem inicializacion_sin_void (s : EstadoSem) (nombre : String)
    (hs : tabla_sin_void_inicializada s.tabla_simbolos) :
    tabla_sin_void_inicializada (analizar_inicializacion s nombre).tabla_simbolos := by
  unfold analizar_inicializacion
  cases hb : buscar s.tabla_simbolos nombre with
  | none => simpa [hb] using hs
  | some v =>
    cases ht : s.tokens[s.posicion + 1]? with
    | none => simpa [hb, ht] using hs
    | some tok =>
      by_cases hc : verificar_compatibilidad_tipos s.tabla_simbolos v.tipo tok
      · simp only [hb, ht, hc, if_true]
        intro p hp htipo
        rcases mem_actualizar s.tabla_simbolos nombre _ p (by simpa using hp) with h1 | ⟨w, hw, hpv⟩
        · exact hs p h1 htipo
        · subst hpv
          rw [hb] at hw
          rcases Option.some.inj hw with rfl
          have hvt : v.tipo = "void" := htipo
          rw [hvt] at hc
          rw [void_incompatible s.tabla_simbolos tok] at hc
          exact Bool.noConfusion hc
      · simpa [hb, ht, hc] using hs

theorem asignacion_sin_void (s : EstadoSem) (nombre : String)
    (hs : tabla_sin_void_inicializada s.tabla_simbolos) :
    tabla_sin_void_inicializada (analizar_asignacion s nombre).tabla_simbolos := by
  unfold analizar_asignacion
  cases ht : s.tokens[s.posicion + 1]? with
  | none => simpa [ht] using hs
  | some tok =>
    cases hb : buscar s.tabla_simbolos nombre with
    | none => simpa [ht, hb] using hs
    | some v =>
      by_cases hc : verificar_compatibilidad_tipos s.tabla_simbolos v.tipo tok
      · simp only [ht, hb, hc, if_true]
        intro p hp htipo
        rcases mem_actualizar s.tabla_simbolos nombre _ p (by simpa using hp) with h1 | ⟨w, hw, hpv⟩
        · exact hs p h1 htipo
        · subst hpv
          rw [hb] at hw
          rcases Option.some.inj hw with rfl
          have hvt : v.tipo = "void" := htipo
          rw [hvt] at hc
          rw [void_incompatible s.tabla_simbolos tok] at hc
          exact Bool.noConfusion hc
      · simpa [ht, hb, hc] using hs

theorem declaracion_sin_void (s : EstadoSem)
    (hs : tabla_sin_void_inicializada s.tabla_simbolos) :
    tabla_sin_void_inicializada (analizar_declaracion s).tabla_simbolos := by
  unfold analizar_declaracion
  cases h0 : s.tokens[s.posicion]? with
  | none => exact hs
  | some tt =>
    cases h1 : s.tokens[s.posicion + 1]? with
    | none => simpa [h1] using hs
    | some tn =>
      by_cases hident : tn.tipo = TipoToken.IDENTIFICADOR
      · by_cases hdup : (buscar s.tabla_simbolos tn.valor).isSome
        · simpa [h1, hident, hdup] using hs
        · have hext : tabla_sin_void_inicializada
              (s.tabla_simbolos ++ [(tn.valor, ⟨tn.valor, tt.valor, tn.linea, false, false⟩)]) := by
            intro p hp htipo
            rcases List.mem_append.mp hp with h2 | h2
            · exact hs p h2 htipo
            · rcases List.mem_singleton.mp h2 with rfl
              rfl
          simp only [h1, hident, hdup]
          cases h2 : s.tokens[s.posicion + 1 + 1]? with
          | none => simpa [h2, hdup] using hext
          | some sig =>
            by_cases ha : sig.tipo = TipoToken.ASIGNACION
            · simp only [h2, ha, if_true]
              simpa [hdup] using inicializacion_sin_void _ tn.valor (by simpa using hext)
            · simpa [h2, ha, hdup] using hext
      · simpa [h1, hident] using hs

theorem identificador_sin_void (s : EstadoSem)
    (hs : tabla_sin_void_inicializada s.tabla_simbolos) :
    tabla_sin_void_inicializada (analizar_identificador s).tabla_simbolos := by
  unfold analizar_identificador
  cases h0 : s.tokens[s.posicion]? with
  | none => exact hs
  | some tok =>
    by_cases hb : (buscar s.tabla_simbolos tok.valor).isNone
    · simpa [h0, hb] using hs
    · have hup := actualizar_usada_sin_void s.tabla_simbolos tok.valor hs
      cases h1 : s.tokens[s.posicion + 1]? with
      | none => simpa [h0, hb, h1] using hup
      | some sig =>
        by_cases ha : sig.tipo = TipoToken.ASIGNACION
        · simp only [h0, hb, h1, ha, if_true, if_false]
          simpa using asignacion_sin_void _ tok.valor (by simpa using hup)
        · simpa [h0, hb, h1, ha] using hup

theorem palabra_clave_sin_void (s : EstadoSem)
    (hs : tabla_sin_void_inicializada s.tabla_simbolos) :
    tabla_sin_void_inicializada (analizar_palabra_clave s).tabla_simbolos := by
  have h := palabra_clave_nombres s
  unfold analizar_palabra_clave
  cases h0 : s.tokens[s.posicion]? with
  | none => exact hs
  | some tok =>
    by_cases hv : tok.valor = "if" ∨ tok.valor = "while" ∨ tok.valor = "for"
    · simpa [h0, hv, (estructura_control_preserva s tok).2.2.1] using hs
    · simpa [h0, hv] using hs

theorem paso_sin_void (s : EstadoSem) (tok : Token)
    (hs : tabla_sin_void_inicializada s.tabla_simbolos) :
    tabla_sin_void_inicializada (paso_analisis s tok).tabla_simbolos := by
  unfold paso_analisis
  by_cases h1 : tok.tipo = TipoToken.TIPO_DATO
  · simpa [h1] using declaracion_sin_void s hs
  by_cases h2 : tok.tipo = TipoToken.IDENTIFICADOR
  · simpa [h1, h2] using identificador_sin_void s hs
  by_cases h3 : tok.tipo = TipoToken.PALABRA_CLAVE
  · simpa [h1, h2, h3] using palabra_clave_sin_void s hs
  · simpa [h1, h2, h3] using hs

theorem analizar_tokens_sin_void (fuel : Nat) :
    ∀ s : EstadoSem, tabla_sin_void_inicializada s.tabla_simbolos →
      tabla_sin_void_inicializada (analizar_tokens fuel s).tabla_simbolos := by
  induction fuel with
  | zero => intro s hs; simpa [analizar_tokens] using hs
  | succ fuel ih =>
    intro s hs
    unfold analizar_tokens
    cases h0 : s.tokens[s.posicion]? with
    | none => exact hs
    | some tok => exact ih (paso_analisis s tok) (paso_sin_void s tok hs)

/-- C10: a variable declared `void` can never be initialized: the
compatibility check rejects every right-hand-side token against target
type `void`; an initialization or assignment whose target variable has
declared type `void` always appends the "Tipo incompatible" error; and
after any complete `analizar` run every symbol of declared type `void`
still has `inicializada = false`. -/
theorem c10_void_nunca_inicializada :
    (∀ (tabla : List (String × Variable)) (tok : Token),
        verificar_compatibilidad_tipos tabla ("void") tok = false) ∧
    (∀ (s : EstadoSem) (nombre : String) (v : Variable) (tok : Token),
        buscar s.tabla_simbolos nombre = some v → v.tipo = "void" →
        s.tokens[s.posicion + 1]? = some tok →
        (analizar_inicializacion s nombre).errores = s.errores ++
          [error_sem ("Tipo incompatible en inicialización de \x27" ++ v.nombre ++
            "\x27 en línea " ++ a_cadena v.linea_declaracion) v.linea_declaracion] ∧
        (analizar_asignacion s nombre).errores = s.errores ++
          [error_sem ("Tipo incompatible en asignación a \x27" ++ nombre ++
            "\x27 en línea " ++ a_cadena tok.linea) tok.linea]) ∧
    (∀ (s : EstadoSem) (codigo : List Char) (p : String × Variable),
        p ∈ (analizar s codigo).tabla_simbolos → p.2.tipo = "void" →
        p.2.inicializada = false) := by
  refine ⟨void_incompatible, ?_, ?_⟩
  · intro s nombre v tok hb htipo ht
    have hcompat : compatible_segun_espec s.tabla_simbolos v.tipo tok = false := by
      rw [← verificar_eq_espec, htipo]
      exact void_incompatible s.tabla_simbolos tok
    constructor
    · rw [inicializacion_errores s nombre v tok hb ht, hcompat]
      simp
    · rw [asignacion_errores s nombre v tok hb ht, hcompat]
      simp
  · intro s codigo p hp htipo
    have hbase : tabla_sin_void_inicializada (limpiar_estado s).tabla_simbolos := by
      intro q hq
      exact absurd hq (by simp [limpiar_estado])
    unfold analizar at hp
    by_cases hvacio : tokenizar codigo = []
    · simp [hvacio, limpiar_estado] at hp
    · have hpaso := analizar_tokens_sin_void ((tokenizar codigo).length + 1)
        { limpiar_estado s with tokens := tokenizar codigo } (by simpa using hbase)
      simp only [hvacio] at hp
      have hp2 : p ∈ (analizar_tokens ((tokenizar codigo).length + 1)
          { limpiar_estado s with tokens := tokenizar codigo }).tabla_simbolos := by
        simpa [verificar_variables_no_usadas, verificar_variables_no_inicializadas,
          hvacio] using hp
      exact hpaso p hp2 htipo

theorem c10_void_nunca_inicializada_witness :
    buscar estado_void.tabla_simbolos ("v") = some ⟨"v", "void", 1, false, false⟩ ∧
    estado_void.tokens[estado_void.posicion + 1]? = some ⟨TipoToken.NUMERO, "5", 1, 9⟩ ∧
    (analizar_inicializacion estado_void ("v")).errores = estado_void.errores ++
      [error_sem ("Tipo incompatible en inicialización de \x27" ++ "v" ++
        "\x27 en línea " ++ a_cadena 1) 1] ∧
    (("v", (⟨"v", "void", 1, false, false⟩ : Variable)) ∈
        (analizar estado_inicial ("void v = 5;".toList)).tabla_simbolos ∧
      (⟨"v", "void", 1, false, false⟩ : Variable).inicializada = false) :=
  ⟨by decide, by decide,
   (c10_void_nunca_inicializada.2.1 estado_void ("v") ⟨"v", "void", 1, false, false⟩
     ⟨TipoToken.NUMERO, "5", 1, 9⟩ (by decide) (by decide) (by decide)).1,
   by decide,
   c10_void_nunca_inicializada.2.2 estado_inicial ("void v = 5;".toList)
     ("v", ⟨"v", "void", 1, false, false⟩) (by decide) (by decide)⟩

theorem escanear_spec (linea : List Char) (num_linea : Nat) :
    ∀ (fuel pos : Nat) (t : Token), t ∈ escanear linea num_linea fuel pos →
      t.linea = num_linea ∧ t.columna + t.valor.length ≤ linea.length ∧
      t.valor = String.mk ((linea.drop t.columna).take t.valor.length) := by
  intro fuel
  induction fuel with
  | zero => intro pos t ht; exact absurd ht (List.not_mem_nil t)
  | succ fuel ih =>
    intro pos t ht
    unfold escanear at ht
    by_cases hpos : pos < linea.length
    · rw [if_pos hpos] at ht
      cases hm : coincidir_patrones (if pos = 0 then none else linea[pos - 1]?)
          (linea.drop pos) with
      | none =>
        rw [hm] at ht
        exact ih (pos + 1) t ht
      | some kn =>
        rw [hm] at ht
        rcases List.mem_cons.mp ht with rfl | htail
        · refine ⟨rfl, ?_, ?_⟩
          · show pos + (String.mk ((linea.drop pos).take kn.2)).length ≤ linea.length
            have hlen : (String.mk ((linea.drop pos).take kn.2)).length =
                min kn.2 (linea.length - pos) := by
              simp [String.length]
            rw [hlen]
            omega
          · show String.mk ((linea.drop pos).take kn.2) =
              String.mk ((linea.drop pos).take (String.mk ((linea.drop pos).take kn.2)).length)
            have hlen : (String.mk ((linea.drop pos).take kn.2)).length =
                min kn.2 (linea.length - pos) := by
              simp [String.length]
            rw [hlen]
            have htake : (linea.drop pos).take (min kn.2 (linea.length - pos)) =
                (linea.drop pos).take kn.2 := by
              rw [List.take_eq_take]
              simp [List.length_drop]
            rw [htake]
        · exact ih (pos + kn.2) t htail
    · rw [if_neg hpos] at ht
      exact absurd ht (List.not_mem_nil t)

theorem tokenizar_lineas_spec :
    ∀ (lineas : List (List Char)) (n : Nat) (t : Token), t ∈ tokenizar_lineas lineas n →
      ∃ i linea, lineas[i]? = some linea ∧ t.linea = n + i ∧
        recortar linea ≠ [] ∧ (recortar linea).take 2 ≠ ['/', '/'] ∧
        t.columna + t.valor.length ≤ (recortar linea).length ∧
        t.valor = String.mk (((recortar linea).drop t.columna).take t.valor.length) := by
  intro lineas
  induction lineas with
  | nil => intro n t ht; exact absurd ht (List.not_mem_nil t)
  | cons linea resto ih =>
    intro n t ht
    unfold tokenizar_lineas at ht
    rcases List.mem_append.mp ht with hcab | hcola
    · by_cases hsalta : recortar linea = [] ∨ (recortar linea).take 2 = ['/', '/']
      · rw [if_pos hsalta] at hcab
        exact absurd hcab (List.not_mem_nil t)
      · rw [if_neg hsalta] at hcab
        rcases escanear_spec (recortar linea) n ((recortar linea).length + 1) 0 t hcab with
          ⟨hlin, hcol, hval⟩
        exact ⟨0, linea, by simp, by omega, fun h => hsalta (Or.inl h),
          fun h => hsalta (Or.inr h), hcol, hval⟩
    · rcases ih (n + 1) t hcola with ⟨i, linea2, hget, hlin, hrest⟩
      exact ⟨i + 1, linea2, by simpa using hget, by omega, hrest⟩

/-- C9: the tokenizer is a total function on any source text; a line
whose trimmed form is empty or starts with `//` contributes no token;
and every produced token carries a 1-based line number pointing at its
source line and a 0-based column offset within the trimmed line: the
token's text is exactly the slice of the trimmed line starting at its
column, so columns are measured in the trimmed line, not the original
text. -/
theorem c9_tokenizador :
    ∀ (codigo : List Char) (t : Token), t ∈ tokenizar codigo →
      1 ≤ t.linea ∧
      ∃ linea, (dividir_lineas codigo)[t.linea - 1]? = some linea ∧
        recortar linea ≠ [] ∧ (recortar linea).take 2 ≠ ['/', '/'] ∧
        t.columna + t.valor.length ≤ (recortar linea).length ∧
        t.valor = String.mk (((recortar linea).drop t.columna).take t.valor.length) := by
  intro codigo t ht
  rcases tokenizar_lineas_spec (dividir_lineas codigo) 1 t ht with
    ⟨i, linea, hget, hlin, hrest⟩
  refine ⟨by omega, linea, ?_, hrest⟩
  have : t.linea - 1 = i := by omega
  rw [this]
  exact hget

theorem c9_tokenizador_witness :
    (⟨TipoToken.TIPO_DATO, "int", 1, 0⟩ : Token) ∈ tokenizar ("  int x".toList) ∧
    (1 ≤ (⟨TipoToken.TIPO_DATO, "int", 1, 0⟩ : Token).linea ∧
      ∃ linea, (dividir_lineas ("  int x".toList))[(⟨TipoToken.TIPO_DATO, "int", 1, 0⟩ :
          Token).linea - 1]? = some linea ∧
        recortar linea ≠ [] ∧ (recortar linea).take 2 ≠ ['/', '/'] ∧
        (⟨TipoToken.TIPO_DATO, "int", 1, 0⟩ : Token).columna +
            (⟨TipoToken.TIPO_DATO, "int", 1, 0⟩ : Token).valor.length ≤
          (recortar linea).length ∧
        (⟨TipoToken.TIPO_DATO, "int", 1, 0⟩ : Token).valor =
          String.mk (((recortar linea).drop (⟨TipoToken.TIPO_DATO, "int", 1, 0⟩ :
            Token).columna).take (⟨TipoToken.TIPO_DATO, "int", 1, 0⟩ : Token).valor.length)) :=
  ⟨by decide, c9_tokenizador ("  int x".toList) ⟨TipoToken.TIPO_DATO, "int", 1, 0⟩ (by decide)⟩

end Analizador
